import Mathlib

/-!
Verification of the scratch game-kernel core: button edge detection,
composite button combinators, the keyboard device with its raw key map and
per-tick snapshots, the rate-capped frame scheduler, and the scene-stack
kernel. Definitions are shallow embeddings of the corresponding functions
in src/scratch.ts.
-/

namespace Scratch

/-! ### Raw keyboard state

The Keyboard owns a JS object mapping key names to flags. The keydown
handler stores `true` under the key name and the keyup handler deletes the
entry, so absence means the key is up. We model the object as an
association list read through the first matching entry, the way JS
property lookup observes the latest assignment. -/

/-- The raw key-name to flag map owned by the Keyboard. -/
abbrev RawStates := List (String × Bool)

/-- Property read of the raw map: the latest value stored under a name, if any. -/
def rawGet (st : RawStates) (n : String) : Option Bool :=
  List.lookup n st

/-- An asynchronous platform key notification: keydown or keyup for a name. -/
inductive RawEvent where
  | down (n : String)
  | up (n : String)
deriving DecidableEq, Repr

/-- Effect of one raw notification on the raw map: keydown stores true
under the name, keyup deletes every entry for the name. -/
def applyRaw (st : RawStates) (e : RawEvent) : RawStates :=
  match e with
  | .down n => (n, true) :: st
  | .up n => st.filter (fun p => !(p.fst == n))

/-! ### Key leaves

A Key caches a per-tick snapshot `state` of its raw flag, plus the
inherited `wasDown` edge state. `update` first runs the base Button update
(saving `wasDown := isDown()`), then resamples `state` from the raw map
with a strict comparison against `true`. -/

/-- One Key object: its bound key name, the cached per-tick snapshot, and
the edge state inherited from Button. -/
structure KeyObj where
  name : String
  state : Bool
  wasDown : Bool
deriving DecidableEq, Repr

/-- Key.isDown reads only the cached snapshot, never the raw map. -/
def KeyObj.isDown (k : KeyObj) : Bool := k.state

/-- Button.isUp: negation of isDown. -/
def KeyObj.isUp (k : KeyObj) : Bool := !k.isDown

/-- Button.pressed: down now and not down as of the last update. -/
def KeyObj.pressed (k : KeyObj) : Bool := k.isDown && !k.wasDown

/-- Button.release: up now and down as of the last update. -/
def KeyObj.release (k : KeyObj) : Bool := !k.isDown && k.wasDown

/-- Key.update: the base Button update saves `wasDown := isDown()` from the
state before the new sample, then the snapshot is resampled from the raw
map, treating anything other than a stored `true` as up. -/
def KeyObj.update (st : RawStates) (k : KeyObj) : KeyObj :=
  { k with wasDown := k.isDown, state := rawGet st k.name == some true }

/-! ### Keyboard device -/

/-- The Keyboard: the raw asynchronous map plus the ordered list of Key
leaves it has issued. -/
structure Keyboard where
  states : RawStates
  keys : List KeyObj
deriving DecidableEq, Repr

/-- Keyboard.update: steps every registered Key leaf, and nothing else. -/
def Keyboard.update (kb : Keyboard) : Keyboard :=
  { kb with keys := kb.keys.map (KeyObj.update kb.states) }

/-- Delivery of a batch of raw notifications between ticks: they mutate
only the raw map, never the issued Key leaves. -/
def Keyboard.applyEvents (kb : Keyboard) (es : List RawEvent) : Keyboard :=
  { kb with states := es.foldl applyRaw kb.states }

/-- Keyboard.key: issues a fresh Key bound to the name (snapshot and edge
state both start false), registers it, and returns its index. -/
def Keyboard.key (kb : Keyboard) (n : String) : Keyboard × Nat :=
  ({ kb with keys := kb.keys ++ [⟨n, false, false⟩] }, kb.keys.length)

/-! ### Buttons and composites

Composite buttons hold references to other buttons; Key leaves live inside
the Keyboard and are referenced by index. Every composite node carries its
own independent `wasDown` field, exactly as every Button instance does in
the source. -/

/-- A Button reference: a Key leaf registered in the Keyboard, or a
composite node carrying its own edge state. -/
inductive Btn where
  | keyRef (i : Nat)
  | andB (wasDown : Bool) (l r : Btn)
  | orB (wasDown : Bool) (l r : Btn)
  | notB (wasDown : Bool) (b : Btn)
deriving DecidableEq, Repr

/-- isDown, recomputed fresh on every call: a Key leaf reads its cached
snapshot; And is both children down, Or is either child down, Not negates
its child. No result is cached. -/
def Btn.isDown (kb : Keyboard) : Btn → Bool
  | .keyRef i => ((kb.keys.get? i).map KeyObj.isDown).getD false
  | .andB _ l r => l.isDown kb && r.isDown kb
  | .orB _ l r => l.isDown kb || r.isDown kb
  | .notB _ b => !(b.isDown kb)

/-- The `wasDown` field of the object a Btn refers to. -/
def Btn.wasDown (kb : Keyboard) : Btn → Bool
  | .keyRef i => ((kb.keys.get? i).map KeyObj.wasDown).getD false
  | .andB w _ _ => w
  | .orB w _ _ => w
  | .notB w _ => w

/-- Button.isUp. -/
def Btn.isUp (kb : Keyboard) (b : Btn) : Bool := !(b.isDown kb)

/-- Button.pressed. -/
def Btn.pressed (kb : Keyboard) (b : Btn) : Bool :=
  b.isDown kb && !(b.wasDown kb)

/-- Button.release. -/
def Btn.release (kb : Keyboard) (b : Btn) : Bool :=
  !(b.isDown kb) && b.wasDown kb

/-- update on a Button object. For a Key leaf this is Key.update, which
mutates the shared object inside the Keyboard (save wasDown, then
resample). For a composite it is the base Button.update: it records
`wasDown := isDown()`, the current combinator result, and touches nothing
else — in particular it does not cascade into children. -/
def Btn.update (kb : Keyboard) : Btn → Keyboard × Btn
  | .keyRef i =>
    match kb.keys.get? i with
    | some k => ({ kb with keys := kb.keys.set i (KeyObj.update kb.states k) }, .keyRef i)
    | none => (kb, .keyRef i)
  | .andB _ l r => (kb, .andB (l.isDown kb && r.isDown kb) l r)
  | .orB _ l r => (kb, .orB (l.isDown kb || r.isDown kb) l r)
  | .notB _ b => (kb, .notB (!(b.isDown kb)) b)

/-- True for And, Or and Not nodes; false for Key leaves. -/
def Btn.isComposite : Btn → Bool
  | .keyRef _ => false
  | .andB _ _ _ => true
  | .orB _ _ _ => true
  | .notB _ _ => true

/-! ### Button ids

Key.id is the literal "Keyboard." followed by the key name. The And and Or
ids interpolate a template that calls the left id but references the right
id method without calling it; JS stringifies the uncalled method reference
to an implementation-defined source string, modelled by an opaque-looking
constant. NotButton.id interpolates `this.id()` — a call back into the
same method on the same object — so its evaluation never produces a
string; we model evaluation with explicit fuel. -/

/-- What JS string interpolation produces for the uncalled method
reference `this.right.id` in the And and Or id templates: the source text
of the method, not its result. The exact text is host-defined and does not
matter for any theorem below. -/
def jsFunSrc : String := "function id() ..."

/-- Fueled evaluation of Button.id. Each method invocation costs one unit
of fuel; `none` means evaluation did not finish within the fuel. The Not
case re-invokes id on the Not button itself, exactly as the source does. -/
def Btn.idFuel (kb : Keyboard) : Nat → Btn → Option String
  | 0, _ => none
  | _ + 1, .keyRef i =>
    some ("Keyboard." ++ ((kb.keys.get? i).map KeyObj.name).getD "")
  | n + 1, .andB _ l _ =>
    (Btn.idFuel kb n l).map (fun s => "(" ++ s ++ ")&(" ++ jsFunSrc ++ ")")
  | n + 1, .orB _ l _ =>
    (Btn.idFuel kb n l).map (fun s => "(" ++ s ++ ")|(" ++ jsFunSrc ++ ")")
  | n + 1, .notB w b =>
    (Btn.idFuel kb n (.notB w b)).map (fun s => "!" ++ s)

/-! ### Frame scheduler

KernelScheduler receives platform frame notifications carrying an absolute
timestamp in milliseconds, converts to seconds, and invokes the callback
only when the elapsed time since the last accepted tick exceeds the target
frame interval. Time is modelled with rationals; the arithmetic involved
is exact. -/

/-- KernelScheduler state: the configured target frame rate, the timestamp
of the last accepted tick (seconds), and whether the loop is executing. -/
structure Scheduler where
  targetFPS : ℚ
  lastTick : ℚ
  executing : Bool
deriving DecidableEq, Repr

/-- The scheduler as constructed: lastTick 0, not executing. -/
def Scheduler.init (fps : ℚ) : Scheduler := ⟨fps, 0, false⟩

/-- KernelScheduler.start: begins executing if not already; idempotent. -/
def Scheduler.start (s : Scheduler) : Scheduler :=
  if s.executing then s else { s with executing := true }

/-- KernelScheduler.stop: halts future scheduling and resets lastTick. -/
def Scheduler.stop (s : Scheduler) : Scheduler :=
  { s with executing := false, lastTick := 0 }

/-- KernelScheduler.tick on one platform notification, timestamp in
milliseconds. Returns the new scheduler state and the dt passed to the
callback when it fires. The loop re-arms regardless (modelled by feeding
the next notification in a run). -/
def Scheduler.tick (s : Scheduler) (timeMS : ℚ) : Scheduler × Option ℚ :=
  if s.executing then
    let time := timeMS / 1000
    if time - s.lastTick > 1 / s.targetFPS then
      ({ s with lastTick := time }, some (time - s.lastTick))
    else (s, none)
  else (s, none)

/-- Feeds a list of notification timestamps (milliseconds) through the
scheduler, collecting every dt with which the callback fired. -/
def Scheduler.run (s : Scheduler) (ts : List ℚ) : Scheduler × List ℚ :=
  ts.foldl
    (fun acc t =>
      let r := Scheduler.tick acc.fst t
      (r.fst, acc.snd ++ r.snd.toList))
    (s, [])

/-! ### Kernel and the scene stack

Scenes are opaque to the kernel: a type parameter. A tick both mutates the
kernel state (keyboard poll, active scene update) and performs externally
visible steps whose order we record as an event trace. -/

/-- The observable steps of one kernel tick, in order of occurrence. -/
inductive TickEvent (σ : Type) where
  | pollKeyboard
  | updateScene (s : σ)
  | clearSurface
  | renderScene (s : σ)
deriving DecidableEq, Repr

/-- Kernel state: the keyboard device and the scene stack. The last list
element is the top of the stack, matching JS array push and pop. -/
structure Kernel (σ : Type) where
  keyboard : Keyboard
  scenes : List σ
deriving DecidableEq, Repr

/-- Kernel.scene: the element at index length - 1 when the stack is
nonempty, null otherwise. -/
def Kernel.scene {σ : Type} (k : Kernel σ) : Option σ :=
  if k.scenes.length > 0 then k.scenes.get? (k.scenes.length - 1) else none

/-- Kernel.push: appends a scene, making it active. -/
def Kernel.push {σ : Type} (k : Kernel σ) (s : σ) : Kernel σ :=
  { k with scenes := k.scenes ++ [s] }

/-- Kernel.pop: discards the top of the stack. -/
def Kernel.pop {σ : Type} (k : Kernel σ) : Kernel σ :=
  { k with scenes := k.scenes.dropLast }

/-- Kernel.swap: a pop followed by a push, inside one synchronous call. -/
def Kernel.swap {σ : Type} (k : Kernel σ) (s : σ) : Kernel σ :=
  (k.pop).push s

/-- Kernel.tick: polls the keyboard, then captures the active scene once;
if one is active it is updated (in place, at the top of the stack), the
surface is cleared, and the same scene is rendered; with an empty stack
the scene steps are skipped. `upd` is the active scene update method.
Returns the new kernel state and the ordered trace of observable steps. -/
def Kernel.tick {σ : Type} (upd : σ → σ) (k : Kernel σ) :
    Kernel σ × List (TickEvent σ) :=
  let kb := k.keyboard.update
  match Kernel.scene k with
  | some s =>
    ({ keyboard := kb, scenes := k.scenes.dropLast ++ [upd s] },
     [.pollKeyboard, .updateScene s, .clearSurface, .renderScene (upd s)])
  | none => ({ keyboard := kb, scenes := k.scenes }, [.pollKeyboard, .clearSurface])

/-! ### Helper lemmas -/

/-- The active scene of a nonempty stack is its last element. -/
theorem scene_concat {σ : Type} (kb : Keyboard) (l : List σ) (s : σ) :
    Kernel.scene ⟨kb, l ++ [s]⟩ = some s := by
  simp [Kernel.scene, List.get?_eq_getElem?, List.getElem?_concat_length]

/-- After any update call, the wasDown field of the updated button holds
the value isDown had when update was entered. -/
theorem wasDown_update (kb : Keyboard) (b : Btn) :
    Btn.wasDown (Btn.update kb b).fst (Btn.update kb b).snd = Btn.isDown kb b := by
  cases b with
  | keyRef i =>
    simp only [Btn.update]
    cases h : kb.keys.get? i with
    | none =>
      rw [List.get?_eq_getElem?] at h
      simp [Btn.wasDown, Btn.isDown, List.get?_eq_getElem?, h]
    | some k =>
      rw [List.get?_eq_getElem?] at h
      have hi : i < kb.keys.length := (List.getElem?_eq_some.mp h).1
      have hset : (kb.keys.set i (KeyObj.update kb.states k))[i]? =
          some (KeyObj.update kb.states k) :=
        List.getElem?_set_eq_of_lt (KeyObj.update kb.states k) hi
      simp only [Btn.wasDown, Btn.isDown, List.get?_eq_getElem?, h, hset,
        Option.map_some, Option.getD_some]
      simp [KeyObj.update, KeyObj.isDown]
  | andB w l r => simp [Btn.update, Btn.wasDown, Btn.isDown]
  | orB w l r => simp [Btn.update, Btn.wasDown, Btn.isDown]
  | notB w c => simp [Btn.update, Btn.wasDown, Btn.isDown]

/-! ### Claims -/

/-- C1: for any Button and any state, right after update() the query
pressed() is true iff isDown() is true now and isDown() was false as of
that update call, and release() is the mirror condition; moreover
Key.update saves wasDown from the snapshot before applying the new raw
sample, and only then resamples the snapshot from the raw map. -/
theorem C1_edge_detection (kb : Keyboard) (b : Btn) :
    (Btn.pressed (Btn.update kb b).fst (Btn.update kb b).snd = true ↔
      (Btn.isDown (Btn.update kb b).fst (Btn.update kb b).snd = true ∧
        Btn.isDown kb b = false))
    ∧ (Btn.release (Btn.update kb b).fst (Btn.update kb b).snd = true ↔
      (Btn.isDown (Btn.update kb b).fst (Btn.update kb b).snd = false ∧
        Btn.isDown kb b = true))
    ∧ (∀ (st : RawStates) (k : KeyObj),
        (KeyObj.update st k).wasDown = KeyObj.isDown k ∧
        (KeyObj.update st k).state = (rawGet st k.name == some true)) := by
  refine ⟨?_, ?_, fun st k => ⟨rfl, rfl⟩⟩
  · rw [Btn.pressed, wasDown_update]
    constructor
    · intro h
      exact ⟨(Bool.and_eq_true _ _ ▸ h).1, by
        have := (Bool.and_eq_true _ _ ▸ h).2
        simpa using this⟩
    · intro ⟨h1, h2⟩
      simp [h1, h2]
  · rw [Btn.release, wasDown_update]
    constructor
    · intro h
      have h1 := (Bool.and_eq_true _ _ ▸ h).1
      have h2 := (Bool.and_eq_true _ _ ▸ h).2
      exact ⟨by simpa using h1, h2⟩
    · intro ⟨h1, h2⟩
      simp [h1, h2]

/-- C4: composite isDown is exactly the boolean combinator over the
children, for every keyboard state and every value of the composite's own
edge field — hence independent of whether the composite was ever
updated, and recomputed fresh from the children on each call. -/
theorem C4_composite_purity (kb : Keyboard) (a b : Btn) (w w2 w3 : Bool) :
    Btn.isDown kb (.andB w a b) = (Btn.isDown kb a && Btn.isDown kb b)
    ∧ Btn.isDown kb (.orB w2 a b) = (Btn.isDown kb a || Btn.isDown kb b)
    ∧ Btn.isDown kb (.notB w3 a) = !(Btn.isDown kb a) :=
  ⟨rfl, rfl, rfl⟩

/-- C5: Keyboard.update steps exactly the registered Key leaves; the edge
state of any composite button built on top of them is unchanged by it. -/
theorem C5_no_cascade (kb : Keyboard) (b : Btn) (hb : Btn.isComposite b = true) :
    Btn.wasDown (Keyboard.update kb) b = Btn.wasDown kb b
    ∧ (Keyboard.update kb).keys = kb.keys.map (KeyObj.update kb.states) := by
  refine ⟨?_, rfl⟩
  cases b with
  | keyRef i => simp [Btn.isComposite] at hb
  | andB w l r => rfl
  | orB w l r => rfl
  | notB w c => rfl

/-- Witness for C5 at a concrete keyboard and composite button. -/
theorem C5_no_cascade_witness :
    Btn.isComposite (.andB true (.keyRef 0) (.keyRef 1)) = true
    ∧ (Btn.wasDown (Keyboard.update ⟨[("a", true)], [⟨"a", false, false⟩, ⟨"b", false, false⟩]⟩)
          (.andB true (.keyRef 0) (.keyRef 1))
        = Btn.wasDown ⟨[("a", true)], [⟨"a", false, false⟩, ⟨"b", false, false⟩]⟩
          (.andB true (.keyRef 0) (.keyRef 1))
      ∧ (Keyboard.update ⟨[("a", true)], [⟨"a", false, false⟩, ⟨"b", false, false⟩]⟩).keys
        = [⟨"a", false, false⟩, ⟨"b", false, false⟩].map
            (KeyObj.update [("a", true)])) :=
  ⟨by decide,
   C5_no_cascade ⟨[("a", true)], [⟨"a", false, false⟩, ⟨"b", false, false⟩]⟩
     (.andB true (.keyRef 0) (.keyRef 1)) (by decide)⟩

/-- C8: a Key whose name is absent from the raw map reports isDown false
after its update — absence is treated as up, not as a failure. -/
theorem C8_absent_key_is_up (st : RawStates) (k : KeyObj)
    (h : rawGet st k.name = none) :
    KeyObj.isDown (KeyObj.update st k) = false := by
  simp [KeyObj.update, KeyObj.isDown, h]

/-- Witness for C8: a key bound to a name never pressed, on the empty raw
map, reads as up after update even if its stale snapshot said down. -/
theorem C8_absent_key_is_up_witness :
    rawGet [] "Enter" = none
    ∧ KeyObj.isDown (KeyObj.update [] ⟨"Enter", true, true⟩) = false :=
  ⟨rfl, C8_absent_key_is_up [] ⟨"Enter", true, true⟩ rfl⟩

/-- C9: raw notifications delivered between two updates mutate only the
raw map, never the issued Key leaves, so every Key query is identical
across two runs that differ only in those notifications. -/
theorem C9_raw_events_invisible (kb : Keyboard) (es1 es2 : List RawEvent) (i : Nat) :
    (Keyboard.applyEvents kb es1).keys = kb.keys
    ∧ ((Keyboard.applyEvents kb es1).keys.get? i).map
        (fun k => (KeyObj.isDown k, KeyObj.isUp k, KeyObj.pressed k, KeyObj.release k))
      = ((Keyboard.applyEvents kb es2).keys.get? i).map
        (fun k => (KeyObj.isDown k, KeyObj.isUp k, KeyObj.pressed k, KeyObj.release k)) :=
  ⟨rfl, rfl⟩

/-- C2: one kernel tick polls the keyboard, then, when a scene is active,
updates that scene, clears the surface, and renders the same scene, in
that order; with an empty stack the scene update and render are skipped
while the poll and the clear still occur. -/
theorem C2_tick_order {σ : Type} (upd : σ → σ) (k : Kernel σ) :
    (∀ (l : List σ) (s : σ), k.scenes = l ++ [s] →
      Kernel.tick upd k =
        (⟨Keyboard.update k.keyboard, l ++ [upd s]⟩,
         [.pollKeyboard, .updateScene s, .clearSurface, .renderScene (upd s)]))
    ∧ (k.scenes = [] →
      Kernel.tick upd k =
        (⟨Keyboard.update k.keyboard, []⟩, [.pollKeyboard, .clearSurface])) := by
  obtain ⟨kb, scs⟩ := k
  constructor
  · rintro l s rfl
    have hs : Kernel.scene ⟨kb, l ++ [s]⟩ = some s := scene_concat kb l s
    simp [Kernel.tick, hs]
  · rintro rfl
    simp [Kernel.tick, Kernel.scene]

/-- Witness for C2 at a concrete two-scene stack over Nat scenes. -/
theorem C2_tick_order_witness :
    Kernel.tick Nat.succ ⟨⟨[], []⟩, [3, 7]⟩ =
      (⟨Keyboard.update ⟨[], []⟩, [3] ++ [Nat.succ 7]⟩,
       [.pollKeyboard, .updateScene 7, .clearSurface, .renderScene (Nat.succ 7)]) :=
  (C2_tick_order Nat.succ ⟨⟨[], []⟩, [3, 7]⟩).1 [3] 7 rfl

/-- C3: when executing, a notification whose elapsed time since the last
accepted tick exceeds the frame interval fires the callback with dt equal
to the whole elapsed time and records the timestamp; otherwise the
callback is skipped and lastTick is unchanged, so the skipped time lands
in the next accepted dt. With targetFPS 60 and notifications at 0, 0.005
and 0.020 seconds (0, 5, 20 milliseconds), the callback fires exactly
once, with dt = 0.020 seconds. -/
theorem C3_rate_cap (s : Scheduler) (t : ℚ) (hx : s.executing = true) :
    (t - s.lastTick > 1 / s.targetFPS →
      Scheduler.tick s (1000 * t) = ({ s with lastTick := t }, some (t - s.lastTick)))
    ∧ (¬ t - s.lastTick > 1 / s.targetFPS →
      Scheduler.tick s (1000 * t) = (s, none))
    ∧ (Scheduler.run (Scheduler.start (Scheduler.init 60)) [0, 5, 20]).snd = [1 / 50] := by
  have ht : (1000 : ℚ) * t / 1000 = t := by field_simp
  refine ⟨?_, ?_, ?_⟩
  · intro h
    have h2 : s.targetFPS⁻¹ < t - s.lastTick := by rwa [one_div] at h
    simp [Scheduler.tick, hx, ht, h]
    linarith
  · intro h
    have h2 : t - s.lastTick ≤ s.targetFPS⁻¹ := by
      rw [one_div] at h
      exact le_of_not_lt h
    simp [Scheduler.tick, hx, ht, h]
    linarith
  · norm_num [Scheduler.run, Scheduler.tick, Scheduler.start, Scheduler.init]

/-- Witness for C3: the started scheduler at lastTick 0 accepts the
notification at 20 milliseconds with dt one fiftieth of a second. -/
theorem C3_rate_cap_witness :
    Scheduler.tick ⟨60, 0, true⟩ (1000 * (1 / 50)) =
      (⟨60, 1 / 50, true⟩, some (1 / 50 - 0)) :=
  (C3_rate_cap ⟨60, 0, true⟩ (1 / 50) rfl).1 (by norm_num)

/-- C6: swap with B active above A yields C active above A in one
synchronous call, literally a pop followed by a push; no intermediate
kernel state is returned, so no tick can observe the stack with its top
missing. -/
theorem C6_swap_atomic {σ : Type} (kb : Keyboard) (rest : List σ) (A B C : σ) :
    Kernel.swap ⟨kb, rest ++ [A, B]⟩ C = ⟨kb, rest ++ [A, C]⟩
    ∧ Kernel.scene (Kernel.swap ⟨kb, rest ++ [A, B]⟩ C) = some C
    ∧ Kernel.swap ⟨kb, rest ++ [A, B]⟩ C =
        Kernel.push (Kernel.pop ⟨kb, rest ++ [A, B]⟩) C := by
  have hsplit : rest ++ [A, B] = (rest ++ [A]) ++ [B] := by simp
  have h1 : Kernel.swap (⟨kb, rest ++ [A, B]⟩ : Kernel σ) C = ⟨kb, rest ++ [A, C]⟩ := by
    simp only [Kernel.swap, Kernel.pop, Kernel.push, hsplit, List.dropLast_concat]
    simp
  refine ⟨h1, ?_, rfl⟩
  rw [h1]
  have h2 : rest ++ [A, C] = (rest ++ [A]) ++ [C] := by simp
  rw [h2]
  exact scene_concat kb (rest ++ [A]) C

/-- C7: push A, push B, pop returns exactly the kernel as it was after
push A: scene A is active again and every remaining scene, A included, is
the untouched original object. -/
theorem C7_stack_identity {σ : Type} (k : Kernel σ) (A B : σ) :
    Kernel.pop (Kernel.push (Kernel.push k A) B) = Kernel.push k A
    ∧ Kernel.scene (Kernel.pop (Kernel.push (Kernel.push k A) B)) = some A := by
  have h1 : Kernel.pop (Kernel.push (Kernel.push k A) B) = Kernel.push k A := by
    simp only [Kernel.pop, Kernel.push, List.dropLast_concat]
  refine ⟨h1, ?_⟩
  rw [h1]
  exact scene_concat k.keyboard k.scenes A

/-- C10: evaluation of NotButton.id never returns a string: the method
invokes id on the Not button itself, so no amount of fuel completes it. -/
theorem C10_not_id_diverges (kb : Keyboard) (fuel : Nat) (w : Bool) (b : Btn) :
    Btn.idFuel kb fuel (.notB w b) = none := by
  induction fuel with
  | zero => rfl
  | succ n ih => simp [Btn.idFuel, ih]

end Scratch
